import Mathlib

/-!
Verification of the replication-health evaluator extracted from
`paasta_tools/check_flink_services_health.py` and of the cleanup logic in
`src/service_deployment_tools/cleanup_marathon_jobs.py`.

The shallow embedding keeps the source structure: the pod-counting and
taskmanager-registration checks are translated from the Python source;
the generic `evaluate`/`aggregate` evaluator, whose threshold arithmetic
lives in `paasta_tools.utils.is_under_replicated` (a module not part of
the reviewed sources), is modelled from the specification.
-/

namespace Paasta

/-- Identity of a checkable unit (service, instance, cluster, sub-component),
as in the data model of the specification. -/
structure ReplicationTarget where
  service : String
  instance_name : String
  cluster : String
  sub_component : String
deriving Repr, DecidableEq

/-- Observed state fed to one evaluation: desired replica count, healthy
count, and the critical threshold percentage. -/
structure ReplicationObservation where
  expected_count : Int
  observed_count : Int
  critical_threshold_percent : Int
deriving Repr, DecidableEq

/-- Result of one evaluation: the boolean plus the human-readable text. -/
structure ReplicationVerdict where
  is_under_replicated : Bool
  message : String
deriving Repr, DecidableEq

/-- The only error the evaluator may signal, per the error-handling design. -/
inductive EvalError where
  | InvalidArgument : String → EvalError
deriving Repr, DecidableEq

/-- Modelled from the spec: `paasta_tools.utils.is_under_replicated` is called
at line 81 of `check_flink_services_health.py` but its module is not among the
reviewed sources.  The spec defines the computation as
`percent_available = expected_count == 0 ? 100 : (observed_count / expected_count) * 100`
and `is_under_replicated = percent_available < critical_threshold_percent`,
an exact rational comparison.  Like the Python original it returns the pair
of the boolean and the ratio. -/
def is_under_replicated (num_available expected_count crit_threshold : Int) :
    Bool × ℚ :=
  let percent_available : ℚ :=
    if expected_count = 0 then 100
    else (num_available : ℚ) / (expected_count : ℚ) * 100
  (decide (percent_available < (crit_threshold : ℚ)), percent_available)

/-- Fixed text carried by `InvalidArgument`. -/
def invalidArgMessage : String := "replication observation violates input constraints"

/-- Deterministic message text combining target identity, counts and
threshold, following the format of the source check output. -/
def mkMessage (target : ReplicationTarget) (obs : ReplicationObservation) : String :=
  "Service " ++ target.service ++ "." ++ target.instance_name
    ++ " on " ++ target.cluster ++ " has "
    ++ toString obs.observed_count ++ " out of " ++ toString obs.expected_count
    ++ " expected instances of " ++ target.sub_component
    ++ " (threshold: " ++ toString obs.critical_threshold_percent ++ "%)"

/-- Modelled from the spec: the generic evaluator `evaluate` of §4.1 does not
exist as a single function in the reviewed sources (the threshold math is
inlined via `paasta_tools.utils.is_under_replicated`).  Inputs outside the
stated constraints signal `InvalidArgument`; otherwise the verdict applies
the ratio comparison of `is_under_replicated` and a deterministic message. -/
def evaluate (target : ReplicationTarget) (obs : ReplicationObservation) :
    Except EvalError ReplicationVerdict :=
  if obs.expected_count < 0 ∨ obs.observed_count < 0 ∨
      obs.critical_threshold_percent < 0 ∨ 100 < obs.critical_threshold_percent then
    Except.error (EvalError.InvalidArgument invalidArgMessage)
  else
    Except.ok
      { is_under_replicated :=
          (is_under_replicated obs.observed_count obs.expected_count
            obs.critical_threshold_percent).1,
        message := mkMessage target obs }

/-- Delimiter between sub-verdict messages, from line 148 of
`check_flink_services_health.py`. -/
def aggregateDelimiter : String := "\n########\n"

/-- Combination of sub-component verdicts, mirroring lines 148 to 154 of
`check_flink_services_health.py`: overall boolean is `any`, overall message
joins the sub-messages with the fixed delimiter. -/
def aggregate (verdicts : List ReplicationVerdict) : ReplicationVerdict :=
  { is_under_replicated := verdicts.any (fun v => v.is_under_replicated),
    message :=
      String.intercalate aggregateDelimiter (verdicts.map (fun v => v.message)) }

/-- With a positive expected count the ratio test of `is_under_replicated`
is the exact cross-multiplied integer comparison. -/
lemma is_under_replicated_fst_pos (n e c : Int) (he : 0 < e) :
    (is_under_replicated n e c).1 = decide (n * 100 < e * c) := by
  have hne : e ≠ 0 := ne_of_gt he
  have heQ : (0:ℚ) < (e:ℚ) := by exact_mod_cast he
  simp only [is_under_replicated, if_neg hne]
  rw [decide_eq_decide]
  rw [div_mul_eq_mul_div, div_lt_iff₀ heQ]
  rw [mul_comm ((c:ℚ)) ((e:ℚ))]
  exact_mod_cast Iff.rfl

/-- With expected count zero the ratio is pinned to 100, so any in-range
threshold yields a healthy verdict. -/
lemma is_under_replicated_fst_zero (n c : Int) (hc : c ≤ 100) :
    (is_under_replicated n 0 c).1 = false := by
  have hcQ : (c:ℚ) ≤ 100 := by exact_mod_cast hc
  simp only [is_under_replicated, if_pos rfl]
  rw [decide_eq_false_iff_not]
  exact not_lt.mpr hcQ

/-- In-range observations pass the validity guard of `evaluate`. -/
lemma evaluate_ok_of_valid (t : ReplicationTarget) (o : ReplicationObservation)
    (h1 : 0 ≤ o.expected_count) (h2 : 0 ≤ o.observed_count)
    (h3 : 0 ≤ o.critical_threshold_percent)
    (h4 : o.critical_threshold_percent ≤ 100) :
    evaluate t o =
      Except.ok
        { is_under_replicated :=
            (is_under_replicated o.observed_count o.expected_count
              o.critical_threshold_percent).1,
          message := mkMessage t o } := by
  have hguard : ¬(o.expected_count < 0 ∨ o.observed_count < 0 ∨
      o.critical_threshold_percent < 0 ∨ 100 < o.critical_threshold_percent) := by
    push_neg
    omega
  rw [evaluate, if_neg hguard]

/-- Claim C1: for an observation with positive expected count and in-range
fields, `evaluate` reports under-replicated exactly when
`observed_count * 100 < expected_count * critical_threshold_percent`
(exact integer comparison); and an observation with expected count zero is
never reported under-replicated. -/
theorem evaluate_under_iff :
    (∀ (t : ReplicationTarget) (o : ReplicationObservation),
        0 < o.expected_count → 0 ≤ o.observed_count →
        0 ≤ o.critical_threshold_percent → o.critical_threshold_percent ≤ 100 →
        (evaluate t o).map (fun v => v.is_under_replicated) =
          Except.ok (decide (o.observed_count * 100 <
            o.expected_count * o.critical_threshold_percent))) ∧
    (∀ (t : ReplicationTarget) (o : ReplicationObservation),
        o.expected_count = 0 → 0 ≤ o.observed_count →
        0 ≤ o.critical_threshold_percent → o.critical_threshold_percent ≤ 100 →
        (evaluate t o).map (fun v => v.is_under_replicated) =
          Except.ok false) := by
  constructor
  · intro t o hE hO hT0 hT1
    rw [evaluate_ok_of_valid t o (le_of_lt hE) hO hT0 hT1]
    simp only [Except.map]
    rw [is_under_replicated_fst_pos _ _ _ hE]
  · intro t o hE hO hT0 hT1
    rw [evaluate_ok_of_valid t o (by omega) hO hT0 hT1]
    simp only [Except.map]
    rw [hE, is_under_replicated_fst_zero _ _ hT1]

/-- Witness for claim C1 at the examples of the spec: 8 of 10 expected at
threshold 90 percent, and expected count zero. -/
theorem evaluate_under_iff_witness :
    ((evaluate ⟨"svc", "main", "west", "taskmanager"⟩ ⟨10, 8, 90⟩).map
        (fun v => v.is_under_replicated) =
      Except.ok (decide ((8:Int) * 100 < 10 * 90))) ∧
    ((evaluate ⟨"svc", "main", "west", "taskmanager"⟩ ⟨0, 5, 90⟩).map
        (fun v => v.is_under_replicated) = Except.ok false) :=
  ⟨evaluate_under_iff.1 _ _ (by decide) (by decide) (by decide) (by decide),
   evaluate_under_iff.2 _ _ rfl (by decide) (by decide) (by decide)⟩

/-- Claim C2: the aggregate boolean is the fold of logical OR over the input
booleans, the aggregate message joins the input messages in input order with
the fixed delimiter, and the boolean combination is grouping-insensitive. -/
theorem aggregate_or_concat :
    (∀ vs : List ReplicationVerdict,
        (aggregate vs).is_under_replicated =
          vs.foldr (fun v acc => v.is_under_replicated || acc) false) ∧
    (∀ vs : List ReplicationVerdict,
        (aggregate vs).message =
          String.intercalate aggregateDelimiter (vs.map (fun v => v.message))) ∧
    (∀ vs ws : List ReplicationVerdict,
        (aggregate (vs ++ ws)).is_under_replicated =
          ((aggregate vs).is_under_replicated ||
            (aggregate ws).is_under_replicated)) := by
  refine ⟨?_, fun vs => rfl, ?_⟩
  · intro vs
    induction vs with
    | nil => rfl
    | cons v vs ih =>
        simp only [aggregate, List.any_cons, List.foldr_cons] at *
        rw [← ih]
  · intro vs ws
    simp only [aggregate, List.any_append]

/-- Claim C3: every in-range observation evaluates to a normal verdict, and
on any input at all `evaluate` either returns a verdict or signals
`InvalidArgument`, never anything else. -/
theorem evaluate_total_error_shape :
    (∀ (t : ReplicationTarget) (o : ReplicationObservation),
        0 ≤ o.expected_count → 0 ≤ o.observed_count →
        0 ≤ o.critical_threshold_percent → o.critical_threshold_percent ≤ 100 →
        (evaluate t o).isOk = true) ∧
    (∀ (t : ReplicationTarget) (o : ReplicationObservation),
        (evaluate t o).isOk = true ∨
          evaluate t o =
            Except.error (EvalError.InvalidArgument invalidArgMessage)) := by
  constructor
  · intro t o h1 h2 h3 h4
    rw [evaluate_ok_of_valid t o h1 h2 h3 h4]
    rfl
  · intro t o
    rw [evaluate]
    split
    · exact Or.inr rfl
    · exact Or.inl rfl

/-- Witness for claim C3 at the degenerate input: expected count zero with
the maximal threshold of 100 percent still yields a normal verdict. -/
theorem evaluate_total_error_shape_witness :
    (evaluate ⟨"svc", "main", "west", "jobmanager"⟩ ⟨0, 0, 100⟩).isOk = true :=
  evaluate_total_error_shape.1 _ _ (by decide) (by decide) (by decide) (by decide)

/-- Claim C4: out-of-range inputs (negative count or threshold outside the
interval from 0 to 100) make `evaluate` signal `InvalidArgument`, with no
silent coercion. -/
theorem evaluate_invalid_argument (t : ReplicationTarget)
    (o : ReplicationObservation)
    (h : o.expected_count < 0 ∨ o.observed_count < 0 ∨
      o.critical_threshold_percent < 0 ∨ 100 < o.critical_threshold_percent) :
    evaluate t o =
      Except.error (EvalError.InvalidArgument invalidArgMessage) := by
  rw [evaluate, if_pos h]

/-- Witness for claim C4 at the example of the spec: expected count minus
one, observed count zero, threshold 50. -/
theorem evaluate_invalid_argument_witness :
    evaluate ⟨"svc", "main", "west", "taskmanager"⟩ ⟨-1, 0, 50⟩ =
      Except.error (EvalError.InvalidArgument invalidArgMessage) :=
  evaluate_invalid_argument _ _ (by decide)

/-- Claim C6: `evaluate` is deterministic; two calls whose targets and
observations agree field by field produce the same verdict, message text
included. -/
theorem evaluate_deterministic (t₁ t₂ : ReplicationTarget)
    (o₁ o₂ : ReplicationObservation)
    (hs : t₁.service = t₂.service) (hi : t₁.instance_name = t₂.instance_name)
    (hc : t₁.cluster = t₂.cluster) (hb : t₁.sub_component = t₂.sub_component)
    (he : o₁.expected_count = o₂.expected_count)
    (ho : o₁.observed_count = o₂.observed_count)
    (ht : o₁.critical_threshold_percent = o₂.critical_threshold_percent) :
    evaluate t₁ o₁ = evaluate t₂ o₂ := by
  cases t₁
  cases t₂
  cases o₁
  cases o₂
  simp_all

/-- Witness for claim C6 at a concrete pair of identical inputs. -/
theorem evaluate_deterministic_witness :
    evaluate ⟨"svc", "main", "west", "supervisor"⟩ ⟨3, 2, 50⟩ =
      evaluate ⟨"svc", "main", "west", "supervisor"⟩ ⟨3, 2, 50⟩ :=
  evaluate_deterministic _ _ _ _ rfl rfl rfl rfl rfl rfl rfl

/-- Claim C7: at the maximal threshold of 100 percent every shortfall,
however small, is reported as under-replicated. -/
theorem evaluate_full_threshold (t : ReplicationTarget)
    (o : ReplicationObservation)
    (hthr : o.critical_threshold_percent = 100)
    (hlt : o.observed_count < o.expected_count)
    (hobs : 0 ≤ o.observed_count) :
    (evaluate t o).map (fun v => v.is_under_replicated) = Except.ok true := by
  have hE : 0 < o.expected_count := by omega
  rw [evaluate_ok_of_valid t o (le_of_lt hE) hobs (by omega) (by omega)]
  simp only [Except.map]
  rw [is_under_replicated_fst_pos _ _ _ hE, hthr]
  simp only [Except.ok.injEq, decide_eq_true_eq]
  omega

/-- Witness for claim C7: 9 observed of 10 expected at threshold 100. -/
theorem evaluate_full_threshold_witness :
    (evaluate ⟨"svc", "main", "west", "taskmanager"⟩ ⟨10, 9, 100⟩).map
        (fun v => v.is_under_replicated) = Except.ok true :=
  evaluate_full_threshold _ _ rfl (by decide) (by decide)

/-- Claim C8: aggregating the empty sequence of verdicts yields a healthy
verdict with an empty message. -/
theorem aggregate_empty :
    aggregate [] = { is_under_replicated := false, message := "" } := rfl

/-- The configuration fields of `FlinkDeploymentConfig` that
`check_under_registered_taskmanagers` reads: service, instance, cluster,
the composed job id and the replication critical percentage. -/
structure FlinkInstanceConfig where
  service : String
  instance_name : String
  cluster : String
  job_id : String
  replication_crit_percentage : Int
deriving Repr, DecidableEq

/-- Explanatory text appended when the check is unhealthy, from lines 86 to
104 of `check_flink_services_health.py`. -/
def unhealthyExplanation (cfg : FlinkInstanceConfig) : String :=
  "\nWhat this alert means:\n\n" ++
  "  This alert means that the Flink dashboard is not reporting the expected\n" ++
  "  number of taskmanagers.\n\n" ++
  "Reasons this might be happening:\n\n" ++
  "  The service may simply be unhealthy. There also may not be enough resources\n" ++
  "  in the cluster to support the requested instance count.\n\n" ++
  "Things you can do:\n\n" ++
  "  * Fix the cause of the unhealthy service. Try running:\n\n" ++
  "     paasta status -s " ++ cfg.service ++ " -i " ++ cfg.instance_name ++
  " -c " ++ cfg.cluster ++ " -vv\n\n"

/-- Embedding of `check_under_registered_taskmanagers` (lines 61 to 105 of
`check_flink_services_health.py`).  The external call
`get_flink_jobmanager_overview` is passed in as `fetch`: on success it gives
the overview, an optional registered-taskmanager count (the source reads
`overview.get("taskmanagers", 0)`); raising `ValueError` is the error case
carrying the message of the exception.  The source initialises
`unhealthy = True`, overwrites it from `is_under_replicated` only when the
fetch succeeds, and appends the explanation when unhealthy. -/
def check_under_registered_taskmanagers (cfg : FlinkInstanceConfig)
    (expected_count : Int) (fetch : Except String (Option Int)) :
    Bool × String :=
  let res :=
    match fetch with
    | Except.ok overview =>
        let num_reported := overview.getD 0
        let crit_threshold := cfg.replication_crit_percentage
        let output :=
          "Service " ++ cfg.job_id ++ " has " ++ toString num_reported ++
          " out of " ++ toString expected_count ++
          " expected instances of taskmanager reported by dashboard!\n" ++
          "(threshold: " ++ toString crit_threshold ++ "%)"
        ((is_under_replicated num_reported expected_count crit_threshold).1,
          output)
    | Except.error e =>
        (true,
          "Dashboard of service " ++ cfg.job_id ++ " is not available!\n(" ++
            e ++ ")")
  if res.1 then (res.1, res.2 ++ unhealthyExplanation cfg) else res

/-- Claim C5: when the dashboard fetch fails, the check does not crash: it
still returns a pair of boolean and message, and the boolean reports
unhealthy. -/
theorem check_dashboard_unavailable_unhealthy (cfg : FlinkInstanceConfig)
    (expected_count : Int) (e : String) :
    (check_under_registered_taskmanagers cfg expected_count
      (Except.error e)).1 = true := rfl

/-- The pod attributes read by `healthy_flink_containers_cnt`: the label
dictionary of the metadata, the readiness reported by `is_pod_ready`, and
the lifetime in seconds computed by `container_lifetime` (now minus the
start time of the pod status). -/
structure V1Pod where
  labels : List (String × String)
  ready : Bool
  lifetime_seconds : ℚ
deriving Repr, DecidableEq

/-- The per-pod condition of the list comprehension at lines 50 to 58 of
`check_flink_services_health.py`: label `flink-container-type` equals the
requested container type, the pod is ready, and its lifetime exceeds 60
seconds. -/
def healthy_pod_cond (container_type : String) (pod : V1Pod) : Bool :=
  (List.lookup "flink-container-type" pod.labels == some container_type) &&
  pod.ready && decide ((60:ℚ) < pod.lifetime_seconds)

/-- Embedding of `healthy_flink_containers_cnt` (lines 47 to 58): the length
of the filtered pod list. -/
def healthy_flink_containers_cnt (si_pods : List V1Pod)
    (container_type : String) : Nat :=
  (si_pods.filter (healthy_pod_cond container_type)).length

/-- Claim C9: the healthy count is the length of the filtered list, and a
pod passes the filter exactly when all three conditions hold: its
`flink-container-type` label equals the requested type, it is ready, and it
has been alive longer than 60 seconds.  Ready pods younger than one minute
are excluded. -/
theorem healthy_count_filter :
    (∀ (si_pods : List V1Pod) (container_type : String),
        healthy_flink_containers_cnt si_pods container_type =
          (si_pods.filter (healthy_pod_cond container_type)).length) ∧
    (∀ (si_pods : List V1Pod) (container_type : String) (pod : V1Pod),
        pod ∈ si_pods.filter (healthy_pod_cond container_type) ↔
          pod ∈ si_pods ∧
          List.lookup "flink-container-type" pod.labels = some container_type ∧
          pod.ready = true ∧ (60:ℚ) < pod.lifetime_seconds) := by
  refine ⟨fun _ _ => rfl, ?_⟩
  intro si_pods container_type pod
  rw [List.mem_filter]
  simp only [healthy_pod_cond, Bool.and_eq_true, beq_iff_eq,
    decide_eq_true_eq]
  tauto

/-- The valid-app list of `cleanup_apps` (lines 37 to 40 of
`cleanup_marathon_jobs.py`): the job ids composed from every
service, instance, iteration triple of the cluster configuration. -/
def valid_app_list (cluster_services : List (String × String × String))
    (compose_job_id : String → String → String → String) : List String :=
  cluster_services.map (fun t => compose_job_id t.1 t.2.1 t.2.2)

/-- Embedding of `cleanup_apps` (lines 35 to 52 of
`cleanup_marathon_jobs.py`), returning the list of app ids for which
`client.delete_app` is issued.  The externals
`get_marathon_services_for_cluster`, `compose_job_id`,
`remove_iteration_from_job_id` and the bounce lock are parameters: the lock
either succeeds or raises `IOError` with a message, and a raised `IOError`
skips the app.  An app is deleted only when its id differs from every
composed valid job id and the bounce lock on its service instance is
acquired. -/
def cleanup_apps (cluster_services : List (String × String × String))
    (compose_job_id : String → String → String → String)
    (remove_iteration_from_job_id : String → String)
    (app_ids : List String)
    (bounce_lock : String → Except String Unit) : List String :=
  let valid := valid_app_list cluster_services compose_job_id
  app_ids.filter (fun app_id =>
    !(valid.any (fun deployed_id => app_id == deployed_id)) &&
    (match bounce_lock (remove_iteration_from_job_id app_id) with
      | Except.ok _ => true
      | Except.error _ => false))

/-- Claim C10: `cleanup_apps` never deletes a valid app: an app id equal to
some composed valid job id is never among the issued deletions; and an
`IOError` from the bounce lock makes the app be skipped, not deleted. -/
theorem cleanup_apps_safe
    (cluster_services : List (String × String × String))
    (compose_job_id : String → String → String → String)
    (remove_iteration_from_job_id : String → String)
    (app_ids : List String)
    (bounce_lock : String → Except String Unit)
    (app_id : String) :
    (app_id ∈ valid_app_list cluster_services compose_job_id →
      app_id ∉ cleanup_apps cluster_services compose_job_id
        remove_iteration_from_job_id app_ids bounce_lock) ∧
    (∀ e : String,
      bounce_lock (remove_iteration_from_job_id app_id) = Except.error e →
      app_id ∉ cleanup_apps cluster_services compose_job_id
        remove_iteration_from_job_id app_ids bounce_lock) := by
  constructor
  · intro hvalid hmem
    rw [cleanup_apps, List.mem_filter] at hmem
    have hany : (valid_app_list cluster_services compose_job_id).any
        (fun deployed_id => app_id == deployed_id) = true := by
      rw [List.any_eq_true]
      exact ⟨app_id, hvalid, beq_self_eq_true app_id⟩
    rw [Bool.and_eq_true, Bool.not_eq_true'] at hmem
    exact absurd hany (by simp [hmem.2.1])
  · intro e he hmem
    rw [cleanup_apps, List.mem_filter, Bool.and_eq_true] at hmem
    have := hmem.2.2
    rw [he] at this
    exact Bool.false_ne_true this

/-- Witness for claim C10: a concrete valid app is not deleted, and a
concrete locked app is not deleted. -/
theorem cleanup_apps_safe_witness :
    ("svc.main.3" ∉ cleanup_apps [("svc", "main", "3")]
        (fun s i it => s ++ "." ++ i ++ "." ++ it) (fun s => s)
        ["svc.main.3", "old.app.1"] (fun _ => Except.ok ())) ∧
    ("old.app.1" ∉ cleanup_apps [("svc", "main", "3")]
        (fun s i it => s ++ "." ++ i ++ "." ++ it) (fun s => s)
        ["svc.main.3", "old.app.1"] (fun _ => Except.error "locked")) :=
  ⟨(cleanup_apps_safe _ _ _ _ _ _).1 (by simp [valid_app_list]),
   (cleanup_apps_safe _ _ _ _ _ _).2 "locked" rfl⟩

end Paasta
